import Mathlib

/-!
Shallow embedding of the core logic of `examples/f1_track_random_walk.py`
(sector boundary estimation, sector labeling, selection validation inside
`getSectorDict`, and the track-composer rotation/translation loop of the
`__main__` block), together with theorems settling the specification claims.

Floating-point values are modelled as `ℚ` where the code only compares,
sums and divides (sector distances, labels), and as `ℝ` where trigonometry
is involved (the composer).  Numpy arrays are modelled as lists.
-/

namespace F1RandomWalk

/-! ### Sector boundary estimator: `getSectorDistances` (lines 33-70)

A lap that survives the `dropna` filter is modelled by what its iteration
contributes: `some (d12, d23)` when `lap.get_telemetry()` succeeds and the
two nearest-sample distances are read off, `none` when telemetry retrieval
raises (the `except` branch prints the exception and stops in `pdb`; the
slot written for that lap keeps its preallocated value `0`).
The caller slices the ten fastest laps (`[0:10]`), preallocates
`np.zeros(10)`, writes slot `index` for each lap in order, and returns
`np.mean` of each full 10-slot array. -/

/-- Slot array `sec12s` (`np.zeros(10)` with slot `i` overwritten by lap
`i`'s first nearest-sample distance when its telemetry call succeeds; the
enumeration index equals the slot index, so each slot is written at most
once and stays `0` for a missing or failing lap). -/
def sec12s (laps : List (Option (ℚ × ℚ))) : List ℚ :=
  (List.range 10).map fun i =>
    match (laps.take 10).getD i none with
    | some v => v.1
    | none => 0

/-- Slot array `sec23s`, same construction for the second boundary. -/
def sec23s (laps : List (Option (ℚ × ℚ))) : List ℚ :=
  (List.range 10).map fun i =>
    match (laps.take 10).getD i none with
    | some v => v.2
    | none => 0

/-- `getSectorDistances`: slice the ten fastest laps, fill the two
preallocated 10-slot arrays, and return `(np.mean(sec12s), np.mean(sec23s))`
-- the mean is over all ten slots. -/
def getSectorDistances (laps : List (Option (ℚ × ℚ))) : ℚ × ℚ :=
  ((sec12s laps).sum / 10, (sec23s laps).sum / 10)

/-! ### Sector labeler: `getSectorsForTel` (lines 72-97) -/

/-- The three sequential masked assignments of `getSectorsForTel`, acting
on one sample: start from the `np.zeros` value `0`, write `1` where
`Distance < sec12`, then `2` where `sec12 <= Distance < sec23`, then `3`
where `Distance >= sec23`. -/
def labelSector (sec12 sec23 d : ℚ) : ℕ :=
  let v : ℕ := 0
  let v := if d < sec12 then 1 else v
  let v := if sec12 ≤ d ∧ d < sec23 then 2 else v
  let v := if sec23 ≤ d then 3 else v
  v

/-- `getSectorsForTel`: the masked assignments are elementwise, so the
sector array is the pointwise labeling of the distance column. -/
def getSectorsForTel (dist : List ℚ) (sec12 sec23 : ℚ) : List ℕ :=
  dist.map (labelSector sec12 sec23)

/-- `np.max` of a distance array (distances are nonnegative; `0` seeds the
fold). -/
def maxDistance (dist : List ℚ) : ℚ :=
  dist.foldr max 0

/-! ### Selection validation inside `getSectorDict` (lines 136-177)

`selected_events` / `selected_sectors` are `None` or integer arrays.  The
validation block (lines 138-157) checks length match, that every sector is
in `{1,2,3}` (`np.isin(selected_sectors, np.arange(3)+1)`), and that every
event index is in `np.arange(len(schedule))`.  On a length mismatch both
variables are reset to `None`; in the other two failure branches the code
assigns the *misspelled* name `seleced_events = None`, so `selected_events`
keeps its value while `selected_sectors` becomes `None`.  Afterwards
(lines 159-172): if both are `None`, `limit_sectors` is clamped to
`3*len(schedule)` and a random choice of that many event/sector pairs is
drawn; otherwise `limit_sectors = len(selected_sectors)` - which raises
`TypeError` when `selected_sectors` is `None`. -/

/-- How the selection phase of `getSectorDict` ends. -/
inductive SelOutcome where
  /-- Both arrays are `None`: `np.random.choice` draws `limit` distinct
  event/sector pairs (after clamping `limit_sectors` to `3*len(schedule)`). -/
  | randomSel (limit : ℕ)
  /-- Both arrays survive: they are flattened and used as given. -/
  | givenSel (events sectors : List ℤ)
  /-- `selected_sectors` is an array but `selected_events` is `None`:
  `np.asarray(None).flatten()` yields `[None]`, no event index matches it,
  and the returned sector dictionary is empty. -/
  | givenSelNoEvents (sectors : List ℤ)
  deriving DecidableEq, Repr

/-- The selection phase of `getSectorDict` for a schedule of `n` events:
validation (lines 138-157, with the `seleced_events` misspelling) followed
by the branch on `None`-ness (lines 159-172).  `Except.error` models an
uncaught Python exception. -/
def getSectorDictSelection (n limit : ℕ)
    (selected_events selected_sectors : Option (List ℤ)) :
    Except String SelOutcome :=
  let post : Option (List ℤ) × Option (List ℤ) :=
    match selected_sectors, selected_events with
    | some secs, some evs =>
      if secs.length = evs.length then
        if secs.all fun s => s = 1 ∨ s = 2 ∨ s = 3 then
          if evs.all fun e => 0 ≤ e ∧ e < (n : ℤ) then
            (some secs, some evs)
          else
            (none, some evs)
        else
          (none, some evs)
      else
        (none, none)
    | s, e => (s, e)
  match post with
  | (none, none) => .ok (.randomSel (min limit (n * 3)))
  | (some secs, some evs) => .ok (.givenSel evs secs)
  | (none, some _) => .error "TypeError: object of type NoneType has no len()"
  | (some secs, none) => .ok (.givenSelNoEvents secs)

/-! ### Sector records (lines 198-209)

The dictionary literal stored for each selected sector. -/

/-- A value stored in a sector record. -/
inductive SectorField where
  /-- `'sector'`: the sector within the event (1, 2 or 3). -/
  | sectorNum (s : ℕ)
  /-- `'event_index'`: the index of the event (first race = 0). -/
  | eventIndex (i : ℕ)
  /-- `'df_index'`: index within the schedule dataframe. -/
  | dfIndex (i : ℕ)
  /-- `'points'`: xy coordinates of the sector's track layout. -/
  | pointsVal (pts : List (ℚ × ℚ))
  deriving DecidableEq

/-- The record `sector_dict[sector_index]` as built by `getSectorDict`:
an association list mirroring the Python dict literal, key for key. -/
def mkSectorRecord (s event_index df_index : ℕ) (points : List (ℚ × ℚ)) :
    List (String × SectorField) :=
  [("sector", .sectorNum s),
   ("event_index", .eventIndex event_index),
   ("df_index", .dfIndex df_index),
   ("points", .pointsVal points)]

/-! ### Track Composer: the `__main__` composition loop (lines 240-292)

Points are `(x, y)` pairs over `ℝ`; a sector's point array is a list.
The loop seeds the composite with the first sector translated so its
first point is the origin, and for each later sector: translates it to
the origin, computes the normalized trailing direction of the composite
(from its last two points) and the normalized entry direction of the new
sector (from its first two points), rotates the sector by
`np.arctan2(cross, dot)` and shifts it to the composite's last point,
then appends all of its points; the color array gets
`np.ones(n)*(event_index+1)` per sector. -/

noncomputable section

/-- Euclidean norm `np.linalg.norm` of a 2D vector. -/
def norm2 (v : ℝ × ℝ) : ℝ := Real.sqrt (v.1 ^ 2 + v.2 ^ 2)

/-- `v / np.linalg.norm(v)`. -/
def normalize (v : ℝ × ℝ) : ℝ × ℝ := (v.1 / norm2 v, v.2 / norm2 v)

/-- `np.arctan2 y x`: the argument of the complex number `x + y i`,
a signed angle in `(-π, π]`. -/
def atan2 (y x : ℝ) : ℝ := Complex.arg ⟨x, y⟩

/-- Subtracting the first point from every point of a sector
(`points - points[0]`, lines 246-247 and 252-253). -/
def translateToOrigin (pts : List (ℝ × ℝ)) : List (ℝ × ℝ) :=
  let p0 := pts.headD (0, 0)
  pts.map fun p => (p.1 - p0.1, p.2 - p0.2)

/-- `old_vector` (lines 256-257): the normalized difference of the
composite's last two points. -/
def old_vector (comp : List (ℝ × ℝ)) : ℝ × ℝ :=
  let a := comp.getLastD (0, 0)
  let b := comp.dropLast.getLastD (0, 0)
  normalize (a.1 - b.1, a.2 - b.2)

/-- `new_vector` (lines 259-260): the normalized difference of the (already
translated) sector's first two points. -/
def new_vector (pts : List (ℝ × ℝ)) : ℝ × ℝ :=
  let p0 := pts.headD (0, 0)
  let p1 := pts.getD 1 (0, 0)
  normalize (p1.1 - p0.1, p1.2 - p0.2)

/-- `angle_rad` (line 263): `np.arctan2` of the cross and dot products of
`new_vector` and `old_vector`. -/
def angle_rad (oldV newV : ℝ × ℝ) : ℝ :=
  atan2 (newV.1 * oldV.2 - newV.2 * oldV.1) (newV.1 * oldV.1 + newV.2 * oldV.2)

/-- The rotated-and-shifted copy of a new sector (lines 252-267):
translate to the origin, rotate by `angle_rad`, shift by the composite's
last point. -/
def rotatedSector (comp pts : List (ℝ × ℝ)) : List (ℝ × ℝ) :=
  let new := translateToOrigin pts
  let θ := angle_rad (old_vector comp) (new_vector new)
  let last := comp.getLastD (0, 0)
  new.map fun p =>
    (Real.cos θ * p.1 - Real.sin θ * p.2 + last.1,
     Real.sin θ * p.1 + Real.cos θ * p.2 + last.2)

/-- One loop iteration for `i > 0`: `np.append` of the rotated sector onto
the composite (lines 286-287). -/
def composeStep (comp pts : List (ℝ × ℝ)) : List (ℝ × ℝ) :=
  comp ++ rotatedSector comp pts

/-- The whole composition loop over `(points, color)` pairs, where the
color value is `event_index + 1`: returns the composite path `(x_all,
y_all)` and the color array `c` (lines 240-288). -/
def composeLoop (sectors : List (List (ℝ × ℝ) × ℝ)) : List (ℝ × ℝ) × List ℝ :=
  match sectors with
  | [] => ([], [])
  | (s0, c0) :: rest =>
    rest.foldl
      (fun acc sc => (composeStep acc.1 sc.1, acc.2 ++ List.replicate sc.1.length sc.2))
      (translateToOrigin s0, List.replicate s0.length c0)

/-- The composite path alone, for a given ordering of sector point lists. -/
def composeTrack (sectors : List (List (ℝ × ℝ))) : List (ℝ × ℝ) :=
  (composeLoop (sectors.map fun s => (s, 1))).1

end

/-! ## Theorems -/

/-! ### Sector labeler (claims C4, C5) -/

/-- A sample strictly below the first boundary is labeled `1` (the later
masked writes do not fire when the boundaries are ordered). -/
theorem labelSector_of_lt (sec12 sec23 d : ℚ) (h : d < sec12)
    (hss : sec12 ≤ sec23) : labelSector sec12 sec23 d = 1 := by
  have hA : ¬ (sec12 ≤ d ∧ d < sec23) := fun hc => absurd h (not_lt.mpr hc.1)
  have hB : ¬ sec23 ≤ d := not_le.mpr (lt_of_lt_of_le h hss)
  simp [labelSector, h, hA, hB]

/-- A sample between the boundaries is labeled `2`. -/
theorem labelSector_of_mid (sec12 sec23 d : ℚ) (h1 : sec12 ≤ d)
    (h2 : d < sec23) : labelSector sec12 sec23 d = 2 := by
  have hA : ¬ d < sec12 := not_lt.mpr h1
  have hB : ¬ sec23 ≤ d := not_le.mpr h2
  simp [labelSector, hA, h1, h2, hB]

/-- A sample at or beyond the second boundary is labeled `3` (the last
masked write always wins). -/
theorem labelSector_of_ge (sec12 sec23 d : ℚ) (h : sec23 ≤ d) :
    labelSector sec12 sec23 d = 3 := by
  simp [labelSector, h]

/-- C4: for every distance array and boundaries with
`0 < d12 < d23 < max(distance)`, `getSectorsForTel` assigns each sample
exactly one label from `{1,2,3}`: `1` iff `d < d12`, `2` iff
`d12 ≤ d < d23`, `3` iff `d ≥ d23`; the function is total (one label per
sample, no failure modes). -/
theorem getSectorsForTel_exactly_one_label (dist : List ℚ) (sec12 sec23 : ℚ)
    (h1 : 0 < sec12) (h2 : sec12 < sec23) (h3 : sec23 < maxDistance dist) :
    (getSectorsForTel dist sec12 sec23).length = dist.length ∧
    ∀ d ∈ dist,
      (labelSector sec12 sec23 d = 1 ↔ d < sec12) ∧
      (labelSector sec12 sec23 d = 2 ↔ sec12 ≤ d ∧ d < sec23) ∧
      (labelSector sec12 sec23 d = 3 ↔ sec23 ≤ d) ∧
      (labelSector sec12 sec23 d = 1 ∨ labelSector sec12 sec23 d = 2 ∨
        labelSector sec12 sec23 d = 3) := by
  refine ⟨by simp [getSectorsForTel], ?_⟩
  intro d _
  rcases lt_or_le d sec12 with hd | hd
  · rw [labelSector_of_lt sec12 sec23 d hd h2.le]
    have hB : ¬ sec23 ≤ d := not_le.mpr (lt_of_lt_of_le hd h2.le)
    simp [hd, hB]
  · rcases lt_or_le d sec23 with hd2 | hd2
    · rw [labelSector_of_mid sec12 sec23 d hd hd2]
      simp [hd, hd2, not_lt.mpr hd, not_le.mpr hd2]
    · rw [labelSector_of_ge sec12 sec23 d hd2]
      simp [hd2, not_lt.mpr (h2.trans_le hd2).le, not_lt.mpr hd2]

/-- Witness for C4 at the spec's scenario `d12 = 1000`, `d23 = 2000`,
distances `[0, 500, 1500, 2500]`: the sample at distance `1500` is
labeled `2` precisely because `1000 ≤ 1500 < 2000`. -/
theorem getSectorsForTel_exactly_one_label_witness :
    labelSector 1000 2000 1500 = 2 ↔ (1000 : ℚ) ≤ 1500 ∧ (1500 : ℚ) < 2000 :=
  (((getSectorsForTel_exactly_one_label [0, 500, 1500, 2500] 1000 2000
    (by norm_num) (by norm_num) (by norm_num [maxDistance])).2
    1500 (by norm_num)).2).1

/-- The labeler is monotone in the distance when the boundaries are
ordered. -/
theorem labelSector_mono (sec12 sec23 a b : ℚ) (hss : sec12 ≤ sec23)
    (hab : a ≤ b) : labelSector sec12 sec23 a ≤ labelSector sec12 sec23 b := by
  rcases lt_or_le a sec12 with ha | ha
  · rw [labelSector_of_lt sec12 sec23 a ha hss]
    rcases lt_or_le b sec12 with hb | hb
    · rw [labelSector_of_lt sec12 sec23 b hb hss]
    · rcases lt_or_le b sec23 with hb2 | hb2
      · rw [labelSector_of_mid sec12 sec23 b hb hb2]; norm_num
      · rw [labelSector_of_ge sec12 sec23 b hb2]; norm_num
  · rcases lt_or_le a sec23 with ha2 | ha2
    · rw [labelSector_of_mid sec12 sec23 a ha ha2]
      rcases lt_or_le b sec23 with hb2 | hb2
      · rw [labelSector_of_mid sec12 sec23 b (ha.trans hab) hb2]
      · rw [labelSector_of_ge sec12 sec23 b hb2]; norm_num
    · rw [labelSector_of_ge sec12 sec23 a ha2,
        labelSector_of_ge sec12 sec23 b (ha2.trans hab)]

/-- C5: on a non-decreasing distance array with boundaries satisfying
`0 < d12 < d23 < max(distance)`, the label sequence produced by
`getSectorsForTel` is non-decreasing. -/
theorem getSectorsForTel_monotone (dist : List ℚ) (sec12 sec23 : ℚ)
    (h1 : 0 < sec12) (h2 : sec12 < sec23) (h3 : sec23 < maxDistance dist)
    (hs : dist.Sorted (· ≤ ·)) :
    (getSectorsForTel dist sec12 sec23).Sorted (· ≤ ·) := by
  unfold getSectorsForTel
  rw [List.Sorted, List.pairwise_map]
  exact hs.imp fun hab => labelSector_mono sec12 sec23 _ _ h2.le hab

/-- Witness for C5 at the sorted array `[0, 500, 1500, 2500]` with
boundaries `(1000, 2000)`. -/
theorem getSectorsForTel_monotone_witness :
    (getSectorsForTel [0, 500, 1500, 2500] 1000 2000).Sorted (· ≤ ·) :=
  getSectorsForTel_monotone [0, 500, 1500, 2500] 1000 2000
    (by norm_num) (by norm_num) (by norm_num [maxDistance]) (by decide)

/-! ### Sector boundary estimator (claims C2, C3) -/

/-- Summing a 10-slot array filled from the first `n ≥ length` laps equals
summing the successful laps' contributions: a missing or failed lap's slot
keeps the preallocated `0`. -/
theorem slots_sum (g : ℚ × ℚ → ℚ) (l : List (Option (ℚ × ℚ))) (n : ℕ)
    (h : l.length ≤ n) :
    ((List.range n).map fun i =>
        match l.getD i none with
        | some v => g v
        | none => 0).sum
      = ((l.filterMap id).map g).sum := by
  induction l generalizing n with
  | nil =>
    simp [List.getD]
  | cons a t ih =>
    cases n with
    | zero => exact absurd h (by simp)
    | succ m =>
      have ht : t.length ≤ m := by simpa using h
      rw [List.range_succ_eq_map, List.map_cons, List.sum_cons, List.map_map]
      have hcomp :
          ((List.range m).map
            ((fun i =>
              match (a :: t).getD i none with
              | some v => g v
              | none => 0) ∘ Nat.succ)).sum
          = ((List.range m).map fun i =>
              match t.getD i none with
              | some v => g v
              | none => 0).sum := rfl
      rw [hcomp, ih m ht]
      cases a with
      | some v => simp [List.getD_cons_zero, List.filterMap_cons]
      | none => simp [List.getD_cons_zero, List.filterMap_cons]

/-- `getSectorDistances` in closed form: each returned boundary is the sum
of the available laps' nearest-sample distances divided by `10`, whatever
the number of available laps. -/
theorem getSectorDistances_eq (laps : List (Option (ℚ × ℚ))) :
    getSectorDistances laps
      = ((((laps.take 10).filterMap id).map Prod.fst).sum / 10,
         (((laps.take 10).filterMap id).map Prod.snd).sum / 10) := by
  have h : (laps.take 10).length ≤ 10 := by
    simpa [List.length_take] using min_le_left 10 laps.length
  unfold getSectorDistances sec12s sec23s
  rw [slots_sum Prod.fst (laps.take 10) 10 h, slots_sum Prod.snd (laps.take 10) 10 h]

/-- C2 counterexample: a session with a single available lap whose
nearest-sample boundary distances are `(100, 200)`.  The claim predicts
the averages `(100, 200)` (mean over the available laps only); the code
divides by the full preallocated slot count `10` and returns `(10, 20)`. -/
theorem getSectorDistances_single_lap_counterexample :
    getSectorDistances [some (100, 200)] = (10, 20) ∧
    getSectorDistances [some (100, 200)] ≠ (100, 200) := by
  rw [getSectorDistances_eq, List.take_of_length_le (by norm_num)]
  norm_num [List.filterMap_cons, Prod.ext_iff]

/-- C2 amended: with fewer than 10 available laps, `getSectorDistances`
returns, for each boundary, the sum of the available laps' nearest-sample
lap-distances divided by 10 — the preallocated zero slots of the missing
laps stay in the mean, so the divisor is 10 rather than the number of
available laps. -/
theorem getSectorDistances_mean_over_ten_slots (laps : List (Option (ℚ × ℚ))) :
    getSectorDistances laps
      = ((((laps.take 10).filterMap id).map Prod.fst).sum / 10,
         (((laps.take 10).filterMap id).map Prod.snd).sum / 10) :=
  getSectorDistances_eq laps

/-- C3 counterexample: ten laps, nine of which yield `(100, 100)` and one
of which fails telemetry retrieval.  The claim says the failed lap
contributes nothing to the returned averages, which would give
`(100, 100)`; the code leaves the failed lap's zero slot in the 10-slot
mean and returns `(90, 90)`. -/
theorem getSectorDistances_failed_lap_counterexample :
    getSectorDistances
        [some (100, 100), some (100, 100), some (100, 100), some (100, 100),
         some (100, 100), some (100, 100), some (100, 100), some (100, 100),
         some (100, 100), none] = (90, 90) ∧
    getSectorDistances
        [some (100, 100), some (100, 100), some (100, 100), some (100, 100),
         some (100, 100), some (100, 100), some (100, 100), some (100, 100),
         some (100, 100), none] ≠ (100, 100) := by
  rw [getSectorDistances_eq, List.take_of_length_le (by norm_num)]
  norm_num [List.filterMap_cons, Prod.ext_iff]

/-- C3 amended: when a lap's telemetry retrieval raises, the loop's
`except` branch logs the error and triggers an interactive debugger
breakpoint (`pdb.set_trace`); once resumed, the remaining laps are
processed normally with no retry, and the failed lap's slot keeps the
preallocated `0`, which stays in the 10-slot mean (lowering the returned
averages rather than being excluded). -/
theorem getSectorDistances_skips_failed_lap (pre post : List (Option (ℚ × ℚ)))
    (h : pre.length + 1 + post.length ≤ 10) :
    getSectorDistances (pre ++ none :: post)
      = ((((pre ++ post).filterMap id).map Prod.fst).sum / 10,
         (((pre ++ post).filterMap id).map Prod.snd).sum / 10) := by
  rw [getSectorDistances_eq]
  have hlen : (pre ++ none :: post).length ≤ 10 := by
    simpa using by omega
  rw [List.take_of_length_le hlen]
  simp [List.filterMap_append]

/-- Witness for C3's amended statement: laps `[(100,100), failed, (50,70)]`
give `((100+50)/10, (100+70)/10) = (15, 17)` — the lap after the failure
still contributes, the failed slot contributes `0`. -/
theorem getSectorDistances_skips_failed_lap_witness :
    ([some ((100 : ℚ), (100 : ℚ))] : List (Option (ℚ × ℚ))).length + 1 +
      ([some ((50 : ℚ), (70 : ℚ))] : List (Option (ℚ × ℚ))).length ≤ 10 ∧
    getSectorDistances [some (100, 100), none, some (50, 70)] = (15, 17) :=
  ⟨by norm_num,
   (getSectorDistances_skips_failed_lap [some (100, 100)] [some (50, 70)]
      (by norm_num)).trans
     (by norm_num [List.filterMap_cons, List.filterMap_append, Prod.ext_iff])⟩

/-! ### Selection validation (claim C1) -/

/-- C1: the claim says every validation failure (length mismatch, sector
outside `{1,2,3}`, event index out of schedule range) falls back to random
selection and completes normally.  Only the length-mismatch branch does:
the other two failure branches assign the misspelled `seleced_events`, so
`selected_events` stays set while `selected_sectors` becomes `None`, and
the subsequent `limit_sectors = len(selected_sectors)` raises `TypeError`.
Evaluated here on a 22-event schedule: a sector value `4` and an event
index `25` each raise, while a length mismatch does fall back to random
selection of `min(limit_sectors, 3*len(schedule))` sectors. -/
theorem getSectorDictSelection_typo_bug :
    getSectorDictSelection 22 100 (some [0]) (some [4])
      = .error "TypeError: object of type NoneType has no len()" ∧
    getSectorDictSelection 22 100 (some [25]) (some [1])
      = .error "TypeError: object of type NoneType has no len()" ∧
    getSectorDictSelection 22 100 (some [0]) (some [1, 2])
      = .ok (.randomSel 66) := by
  refine ⟨?_, ?_, ?_⟩ <;> rfl

/-! ### Sector records (claim C9) -/

/-- C9 counterexample: the record built by `getSectorDict` (sector 1 of
event 0, empty point list shown; the keys do not depend on the values)
has no `entry_vector` and no `exit_vector` key. -/
theorem mkSectorRecord_no_vectors :
    ¬ ("entry_vector" ∈ (mkSectorRecord 1 0 0 []).map Prod.fst) ∧
    ¬ ("exit_vector" ∈ (mkSectorRecord 1 0 0 []).map Prod.fst) := by
  constructor <;> decide

/-- C9 amended: every sector record contains exactly the keys `sector`,
`event_index`, `df_index` and `points` — sector number, event index,
dataframe index and the ordered point sequence; no entry or exit vector
is precomputed (the composer recomputes directions from raw points). -/
theorem mkSectorRecord_keys (s e d : ℕ) (pts : List (ℚ × ℚ)) :
    (mkSectorRecord s e d pts).map Prod.fst
      = ["sector", "event_index", "df_index", "points"] := rfl

/-! ### Track Composer (claims C6, C7, C8, C10) -/

/-- Componentwise difference of distinct points is a nonzero vector. -/
theorem sub_ne_zero_pair (a b : ℝ × ℝ) (h : a ≠ b) :
    ((a.1 - b.1, a.2 - b.2) : ℝ × ℝ) ≠ (0, 0) := by
  intro hc
  apply h
  have hx := congrArg Prod.fst hc
  have hy := congrArg Prod.snd hc
  simp only [Prod.fst, Prod.snd] at hx hy
  exact Prod.ext (by linarith) (by linarith)

/-- The Euclidean norm of a nonzero vector is positive. -/
theorem norm2_pos (v : ℝ × ℝ) (hv : v ≠ (0, 0)) : 0 < norm2 v := by
  unfold norm2
  apply Real.sqrt_pos.mpr
  have hor : v.1 ≠ 0 ∨ v.2 ≠ 0 := by
    by_contra hcon
    push_neg at hcon
    exact hv (Prod.ext hcon.1 hcon.2)
  rcases hor with hne | hne
  · have := pow_two_pos_of_ne_zero hne
    nlinarith [sq_nonneg v.2]
  · have := pow_two_pos_of_ne_zero hne
    nlinarith [sq_nonneg v.1]

/-- Normalizing a nonzero vector yields a unit vector. -/
theorem norm2_normalize (v : ℝ × ℝ) (hv : v ≠ (0, 0)) :
    norm2 (normalize v) = 1 := by
  have hp := norm2_pos v hv
  have hs : (0 : ℝ) ≤ v.1 ^ 2 + v.2 ^ 2 := by positivity
  have hsq : norm2 v ^ 2 = v.1 ^ 2 + v.2 ^ 2 := Real.sq_sqrt hs
  have hne : v.1 ^ 2 + v.2 ^ 2 ≠ 0 := by
    rw [← hsq]
    exact pow_ne_zero 2 (ne_of_gt hp)
  unfold normalize norm2
  rw [div_pow, div_pow, div_add_div_same]
  rw [show Real.sqrt (v.1 ^ 2 + v.2 ^ 2) = norm2 v from rfl, hsq]
  rw [div_self hne, Real.sqrt_one]

/-- C8: whenever the two points defining a direction vector are distinct
(the composite's last two points for `old_vector`, a sector's first two
points for `new_vector`), the normalized vector used by the composer has
Euclidean norm exactly 1. -/
theorem direction_vectors_unit (comp pts : List (ℝ × ℝ))
    (h1 : comp.getLastD (0, 0) ≠ comp.dropLast.getLastD (0, 0))
    (h2 : pts.getD 1 (0, 0) ≠ pts.headD (0, 0)) :
    norm2 (old_vector comp) = 1 ∧ norm2 (new_vector pts) = 1 := by
  constructor
  · exact norm2_normalize _ (sub_ne_zero_pair _ _ h1)
  · exact norm2_normalize _ (sub_ne_zero_pair _ _ h2)

/-- Witness for C8: a two-point composite ending in direction `(1,0)` and
a two-point sector starting in direction `(0,1)`. -/
theorem direction_vectors_unit_witness :
    norm2 (old_vector [((0 : ℝ), (0 : ℝ)), (1, 0)]) = 1 ∧
    norm2 (new_vector [((0 : ℝ), (0 : ℝ)), (0, 1)]) = 1 :=
  direction_vectors_unit [(0, 0), (1, 0)] [(0, 0), (0, 1)]
    (by norm_num [List.getLastD, Prod.ext_iff])
    (by norm_num [List.getD, Prod.ext_iff])

/-- C7: after rotating and translating a new sector (with at least two
points and a non-degenerate entry direction) and before appending it, the
sector's first transformed point coincides exactly with the composite's
current last point — the junction distance is zero. -/
theorem junction_continuity (comp pts : List (ℝ × ℝ))
    (hc : comp ≠ []) (hp : 2 ≤ pts.length)
    (hnd : pts.getD 1 (0, 0) ≠ pts.headD (0, 0)) :
    (rotatedSector comp pts).headD (0, 0) = comp.getLastD (0, 0) ∧
    norm2 (((rotatedSector comp pts).headD (0, 0)).1 - (comp.getLastD (0, 0)).1,
           ((rotatedSector comp pts).headD (0, 0)).2 - (comp.getLastD (0, 0)).2)
      = 0 := by
  obtain ⟨p, rest, rfl⟩ : ∃ p rest, pts = p :: rest := by
    cases pts with
    | nil => simp at hp
    | cons p rest => exact ⟨p, rest, rfl⟩
  have hhead :
      (rotatedSector comp (p :: rest)).headD (0, 0) = comp.getLastD (0, 0) := by
    simp only [rotatedSector, translateToOrigin, List.map_cons, List.headD_cons]
    rw [Prod.ext_iff]
    constructor <;> simp
  refine ⟨hhead, ?_⟩
  rw [hhead]
  simp [norm2]

/-- Witness for C7: composing sector `[(0,0),(0,1)]` onto the composite
`[(0,0),(1,0)]` — the transformed first point lands exactly on `(1,0)`. -/
theorem junction_continuity_witness :
    (rotatedSector [((0 : ℝ), (0 : ℝ)), (1, 0)] [(0, 0), (0, 1)]).headD (0, 0)
      = ([((0 : ℝ), (0 : ℝ)), (1, 0)] : List (ℝ × ℝ)).getLastD (0, 0) :=
  (junction_continuity [(0, 0), (1, 0)] [(0, 0), (0, 1)]
    (by simp) (by simp) (by norm_num [List.getD, Prod.ext_iff])).1

/-- Rotation and translation preserve a sector's point count. -/
theorem rotatedSector_length (comp pts : List (ℝ × ℝ)) :
    (rotatedSector comp pts).length = pts.length := by
  simp [rotatedSector, translateToOrigin]

/-- One append step grows the composite by exactly the sector's point
count (the duplicate junction point included). -/
theorem composeStep_length (comp pts : List (ℝ × ℝ)) :
    (composeStep comp pts).length = comp.length + pts.length := by
  simp [composeStep, rotatedSector_length]

/-- Lengths through the fold of the composition loop: starting from any
accumulator, the composite grows by the total point count of the remaining
sectors and the color array grows in lockstep. -/
theorem composeFold_lengths (rest : List (List (ℝ × ℝ) × ℝ)) :
    ∀ acc : List (ℝ × ℝ) × List ℝ,
      ((rest.foldl (fun acc sc =>
          (composeStep acc.1 sc.1, acc.2 ++ List.replicate sc.1.length sc.2))
          acc).1.length
        = acc.1.length + (rest.map fun sc => sc.1.length).sum) ∧
      ((rest.foldl (fun acc sc =>
          (composeStep acc.1 sc.1, acc.2 ++ List.replicate sc.1.length sc.2))
          acc).2.length
        = acc.2.length + (rest.map fun sc => sc.1.length).sum) := by
  induction rest with
  | nil => intro acc; simp
  | cons s t ih =>
    intro acc
    simp only [List.foldl_cons, List.map_cons, List.sum_cons]
    obtain ⟨ih1, ih2⟩ :=
      ih (composeStep acc.1 s.1, acc.2 ++ List.replicate s.1.length s.2)
    constructor
    · rw [ih1]
      simp [composeStep_length]
      omega
    · rw [ih2]
      simp
      omega

/-- C10: the composer appends every point of every sector, the duplicate
junction point included: after composing `k` sectors with `n_1, ..., n_k`
points the composite path has exactly `n_1 + ... + n_k` points, and the
per-point source-circuit color array always has the same length as the
composite path. -/
theorem composer_appends_all_points (sectors : List (List (ℝ × ℝ) × ℝ)) :
    (composeLoop sectors).1.length = (sectors.map fun sc => sc.1.length).sum ∧
    (composeLoop sectors).2.length = (composeLoop sectors).1.length := by
  cases sectors with
  | nil => simp [composeLoop]
  | cons s0 t =>
    obtain ⟨pts0, c0⟩ := s0
    obtain ⟨h1, h2⟩ :=
      composeFold_lengths t (translateToOrigin pts0, List.replicate pts0.length c0)
    unfold composeLoop
    refine ⟨?_, ?_⟩
    · rw [h1]
      simp [translateToOrigin]
    · rw [h2, h1]
      simp [translateToOrigin]

/-- Translating sector B `[(0,0),(0,1)]` to the origin leaves it fixed. -/
theorem scenario_translate_B :
    translateToOrigin [((0 : ℝ), (0 : ℝ)), (0, 1)] = [(0, 0), (0, 1)] := by
  norm_num [translateToOrigin]

/-- The trailing direction of the composite seeded from sector A
`[(0,0),(1,0)]` is `(1,0)`. -/
theorem scenario_old_vector :
    old_vector [((0 : ℝ), (0 : ℝ)), (1, 0)] = (1, 0) := by
  norm_num [old_vector, normalize, norm2, List.getLastD, Prod.ext_iff]

/-- The entry direction of sector B `[(0,0),(0,1)]` is `(0,1)`. -/
theorem scenario_new_vector :
    new_vector [((0 : ℝ), (0 : ℝ)), (0, 1)] = (0, 1) := by
  norm_num [new_vector, normalize, norm2, List.getD, Prod.ext_iff]

/-- The signed rotation angle from entry direction `(0,1)` to trailing
direction `(1,0)` is `atan2(-1, 0) = -π/2`. -/
theorem scenario_angle :
    angle_rad ((1 : ℝ), (0 : ℝ)) ((0 : ℝ), (1 : ℝ)) = -(Real.pi / 2) := by
  have h : (⟨0, -1⟩ : ℂ) = -Complex.I := by
    simp [Complex.ext_iff]
  norm_num [angle_rad, atan2]
  rw [h, Complex.arg_neg_I]

/-- Rotating sector B by `-π/2` about its first point and shifting it to
the composite's endpoint `(1,0)` yields `[(1,0),(2,0)]`. -/
theorem scenario_rotated_B :
    rotatedSector [((0 : ℝ), (0 : ℝ)), (1, 0)] [((0 : ℝ), (0 : ℝ)), (0, 1)]
      = [(1, 0), (2, 0)] := by
  rw [rotatedSector]
  rw [scenario_translate_B, scenario_old_vector, scenario_new_vector,
    scenario_angle]
  norm_num [List.getLastD, Prod.ext_iff, Real.cos_pi_div_two,
    Real.sin_pi_div_two]

/-- Full evaluation of the two-sector scenario: composing B
`[(0,0),(0,1)]` onto the composite seeded from A `[(0,0),(1,0)]`. -/
theorem scenario_track :
    composeTrack [[((0 : ℝ), (0 : ℝ)), (1, 0)], [(0, 0), (0, 1)]]
      = [(0, 0), (1, 0), (1, 0), (2, 0)] := by
  have hA : translateToOrigin [((0 : ℝ), (0 : ℝ)), (1, 0)] = [(0, 0), (1, 0)] := by
    norm_num [translateToOrigin]
  rw [composeTrack]
  rw [composeLoop.eq_def]
  simp only [List.map_cons, List.map_nil, List.foldl_cons, List.foldl_nil]
  rw [hA]
  rw [show composeStep [((0 : ℝ), (0 : ℝ)), (1, 0)] [((0 : ℝ), (0 : ℝ)), (0, 1)]
        = [(0, 0), (1, 0)] ++ rotatedSector [(0, 0), (1, 0)] [(0, 0), (0, 1)]
      from rfl]
  rw [scenario_rotated_B]
  norm_num

/-- C6 counterexample: in the spec's two-sector scenario (composite seeded
from A `[(0,0),(1,0)]`, sector B `[(0,0),(0,1)]`), the rotation does map
B's entry direction `(0,1)` onto the trailing direction `(1,0)` — so B's
rotated second point is `(2,0)`, not `(1,1)` as the claim states ( `(1,1)`
would mean B kept its entry direction, i.e. no rotation at all). -/
theorem composer_rotation_scenario_counterexample :
    (composeTrack [[((0 : ℝ), (0 : ℝ)), (1, 0)], [(0, 0), (0, 1)]]).getD 3 (0, 0)
      = (2, 0) ∧
    (composeTrack [[((0 : ℝ), (0 : ℝ)), (1, 0)], [(0, 0), (0, 1)]]).getD 3 (0, 0)
      ≠ (1, 1) := by
  rw [scenario_track]
  norm_num [List.getD, Prod.ext_iff]

/-- C6 amended: composing sector B `[(0,0),(0,1)]` onto the composite
seeded from sector A `[(0,0),(1,0)]` rotates B's entry direction `(0,1)`
onto the composite's trailing direction `(1,0)`: B's rotated first point
is `(1,0)` and its rotated second point is `(2,0)`, continuing the
composite along `(1,0)`. -/
theorem composer_rotation_scenario_amended :
    composeTrack [[((0 : ℝ), (0 : ℝ)), (1, 0)], [(0, 0), (0, 1)]]
      = [(0, 0), (1, 0), (1, 0), (2, 0)] :=
  scenario_track

end F1RandomWalk
